import Mathlib

/-
Verification development for the astrbot_logic_server repository.

The embedding translates the Python sources into Lean:
  src/service/structs.py   : CallParameters, CallResponse, ApiMeta
  src/service/module.py    : Module, Module.api, on_start, on_shutdown
  src/service/service.py   : RPCServer, _register_module, _handle_request,
                             _handle_client, start, shutdown
  src/modules/test1/__init__.py : the test module and its two handlers

Python runtime values that travel through msgpack payloads and handler
calls are modelled by the inductive type Obj below.  Fallible Python code
(code that can raise) is modelled with Except String, the String being
the exception message text (what str(e) yields in the except branch of
RPCServer._handle_request).
-/

set_option autoImplicit false

namespace LogicServer

/-- Obj models the Python runtime values reachable in this program: the
msgpack-decoded payload values (None, bool, int, str, dict) plus pydantic
model instances, which carry their class name and their field map. -/
inductive Obj where
  | pyNone
  | pyBool (b : Bool)
  | pyInt (n : Int)
  | pyStr (s : String)
  | pyDict (entries : List (String × Obj))
  | pyModel (cls : String) (fields : List (String × Obj))

/-- dictLookup models Python dict.get(key) on an insertion-ordered dict
represented as an association list. -/
def dictLookup {α : Type} : List (String × α) → String → Option α
  | [], _ => none
  | (k, v) :: rest, key => if k = key then some v else dictLookup rest key

/-- dictSet models Python dict assignment d[key] = v: it replaces the value
in place when the key is present and appends a new entry otherwise, which is
exactly the insertion-order behaviour of CPython dicts. -/
def dictSet {α : Type} : List (String × α) → String → α → List (String × α)
  | [], key, v => [(key, v)]
  | (k, w) :: rest, key, v =>
      if k = key then (key, v) :: rest else (k, w) :: dictSet rest key v

/-- getattr models Python attribute access on the values a handler can
receive or produce.  Attribute access on a plain dict raises AttributeError
(dicts expose items, not attributes); on a pydantic model instance it reads
the field map.  The returned String is the exception message text. -/
def getattr : Obj → String → Except String Obj
  | Obj.pyNone, attr =>
      Except.error ("\x27NoneType\x27 object has no attribute \x27" ++ attr ++ "\x27")
  | Obj.pyBool _, attr =>
      Except.error ("\x27bool\x27 object has no attribute \x27" ++ attr ++ "\x27")
  | Obj.pyInt _, attr =>
      Except.error ("\x27int\x27 object has no attribute \x27" ++ attr ++ "\x27")
  | Obj.pyStr _, attr =>
      Except.error ("\x27str\x27 object has no attribute \x27" ++ attr ++ "\x27")
  | Obj.pyDict _, attr =>
      Except.error ("\x27dict\x27 object has no attribute \x27" ++ attr ++ "\x27")
  | Obj.pyModel cls fields, attr =>
      match dictLookup fields attr with
      | some v => Except.ok v
      | none =>
          Except.error ("\x27" ++ cls ++ "\x27 object has no attribute \x27" ++ attr ++ "\x27")

/-- ancestors lists the method-resolution ancestors of the pydantic model
classes defined in this repository (src/service/structs.py and
src/modules/test1/\x5f\x5finit\x5f\x5f.py), so that isinstance checks are faithful. -/
def ancestors : String → List String
  | "TestResponse" => ["TestResponse", "BaseResponse", "BaseModel"]
  | "TestParameters" => ["TestParameters", "BaseParameters", "BaseModel"]
  | "BaseResponse" => ["BaseResponse", "BaseModel"]
  | "BaseParameters" => ["BaseParameters", "BaseModel"]
  | c => [c]

/-- isinstanceOf models the Python isinstance(result, cls) check performed
by RPCServer during dispatch.  Only pydantic model instances are instances
of the model classes this program checks against. -/
def isinstanceOf (o : Obj) (cls : String) : Bool :=
  match o with
  | Obj.pyModel c _ => (ancestors c).contains cls
  | _ => false

/-- CallParameters embeds the pydantic model of the same name from
src/service/structs.py: module_id, unified_msg_origin and method are str
fields and params is a plain dict field (it is NOT decoded into the target
param_model by this model). -/
structure CallParameters where
  module_id : String
  unified_msg_origin : String
  method : String
  params : List (String × Obj)

/-- decodeCallParameters embeds the pydantic validation performed by the
constructor call CallParameters(**data) in RPCServer. It succeeds when the
four required fields are present with the declared runtime types and
ignores extra keys (pydantic default extra handling); otherwise pydantic
raises a ValidationError, modelled as an error message. -/
def decodeCallParameters (data : List (String × Obj)) : Except String CallParameters :=
  match dictLookup data "module_id", dictLookup data "unified_msg_origin",
        dictLookup data "method", dictLookup data "params" with
  | some (Obj.pyStr mid), some (Obj.pyStr umo), some (Obj.pyStr meth), some (Obj.pyDict ps) =>
      Except.ok { module_id := mid, unified_msg_origin := umo, method := meth, params := ps }
  | _, _, _, _ => Except.error "validation error for CallParameters"

/-- CallResponse embeds the pydantic model of the same name from
src/service/structs.py.  data none models the Python value None. -/
structure CallResponse where
  ok : Bool
  unified_msg_origin : String
  data : Option Obj
  error_message : String

/-- ApiMeta embeds the dataclass of the same name from
src/service/structs.py.  The handler func is modelled as a function from
the single Python argument it is called with to either a returned value or
a raised exception message; param_model and resp_model are the class names
of the declared parameter and response types. -/
structure ApiMeta where
  func : Obj → Except String Obj
  param_model : String
  resp_model : String
  is_async : Bool
  method_name : String

/-- Hook models one lifecycle callback registered on a module: its
\x5f\x5fname\x5f\x5f and whether invoking it raises (RPCServer logs and
skips a raising hook). -/
structure Hook where
  name : String
  raises : Bool
deriving DecidableEq

/-- Module embeds the class of the same name from src/service/module.py.
The context dict (dependency-injection storage) and the path attribute are
not needed by any claim and are omitted; apis, start_hooks and
shutdown_hooks keep the insertion order the decorators produce. -/
structure Module where
  id : String
  name : String
  description : String
  apis : List (String × ApiMeta)
  start_hooks : List Hook
  shutdown_hooks : List Hook

/-- registerApi is the registration effect at the end of Module.api in
src/service/module.py, line 65: self.apis[full_method_name] = api_meta,
a plain dict assignment (insert or silently replace). -/
def Module.registerApi (m : Module) (meta : ApiMeta) : Module :=
  { m with apis := dictSet m.apis meta.method_name meta }

/-- api embeds Module.api from src/service/module.py (lines 24-68), the
decorator body applied to a concrete function.  param_ok stands for the
issubclass(param_type, BaseParameters) check on the params type hint, and
resp_ok for the issubclass(return_type, BaseResponse) check; when both
pass, the ApiMeta (already carrying the resolved full_method_name and
is_async flag) is stored with a dict assignment.  There is no duplicate-
method check anywhere in the source.  The side call
server.\x5fregister_module(self) is modelled separately by
RPCServer.registerModule. -/
def Module.api (m : Module) (param_ok resp_ok : Bool) (meta : ApiMeta) :
    Except String Module :=
  if param_ok = false then
    Except.error "Parameter \x27params\x27 must be a subclass of BaseParameters"
  else if resp_ok = false then
    Except.error "Return type must be a subclass of BaseResponse"
  else
    Except.ok (m.registerApi meta)

/-- on_start embeds Module.on_start: it appends the hook to start_hooks. -/
def Module.on_start (m : Module) (h : Hook) : Module :=
  { m with start_hooks := m.start_hooks ++ [h] }

/-- on_shutdown embeds Module.on_shutdown: it appends the hook to
shutdown_hooks. -/
def Module.on_shutdown (m : Module) (h : Hook) : Module :=
  { m with shutdown_hooks := m.shutdown_hooks ++ [h] }

/-- RPCServer embeds the server state from RPCServer.\x5f\x5finit\x5f\x5f
in src/service/service.py (lines 30-35): the socket path, the modules dict,
and the single asyncio.Lock allocated there, modelled by a lock identifier.
Exactly one lock is created per server instance and it lives on the server,
not on any connection. -/
structure RPCServer where
  socket_path : String
  modules : List (String × Module)
  write_lock : Nat

/-- registerModule embeds RPCServer.\x5fregister_module (lines 37-42): if
the id is already a key of the modules dict the call returns with no
effect; otherwise the module is inserted. -/
def RPCServer.registerModule (s : RPCServer) (m : Module) : RPCServer :=
  if (dictLookup s.modules m.id).isSome then s
  else { s with modules := s.modules ++ [(m.id, m)] }

/-- writeLockFor gives the identity of the lock acquired when a response is
written back for a request arriving on connection connId: line 122 of
src/service/service.py is async with self.\x5fwrite_lock, so the lock is
the one field of the server and does not depend on the connection. -/
def writeLockFor (s : RPCServer) (_connId : Nat) : Nat :=
  s.write_lock

/-- tryBody embeds the try block of RPCServer.\x5fhandle_request (lines
86-110).  On an exception it reports the message text together with the
CallParameters value when the local variable req was already bound at the
raise site (pydantic validation is the only raise site where req is still
unbound).  Both the is_async branch (await meta.func(req.params)) and the
sync branch (asyncio.to_thread(meta.func, req.params)) call the handler on
req.params, the raw params dict; neither decodes it into meta.param_model. -/
def tryBody (s : RPCServer) (data : List (String × Obj)) :
    Except (Option CallParameters × String) CallResponse :=
  match decodeCallParameters data with
  | Except.error e => Except.error (none, e)
  | Except.ok req =>
    match dictLookup s.modules req.module_id with
    | none => Except.error (some req, "Unknown module: " ++ req.module_id)
    | some module =>
      match dictLookup module.apis req.method with
      | none => Except.error (some req, "Unknown method: " ++ req.method)
      | some meta =>
        match (if meta.is_async then meta.func (Obj.pyDict req.params)
               else meta.func (Obj.pyDict req.params)) with
        | Except.error e => Except.error (some req, e)
        | Except.ok result =>
          if isinstanceOf result meta.resp_model then
            Except.ok { ok := true, unified_msg_origin := req.unified_msg_origin,
                        data := some result, error_message := "" }
          else
            Except.error (some req, "Return type mismatch for " ++ req.method)

/-- handleRequest embeds RPCServer.\x5fhandle_request (lines 80-118) up to
the point where the response value exists.  The except branch builds the
failure response from req.unified_msg_origin; when the try block raised
before req was bound, that very expression raises UnboundLocalError out of
the except handler, so the coroutine produces no response at all, modelled
as none. -/
def handleRequest (s : RPCServer) (data : List (String × Obj)) : Option CallResponse :=
  match tryBody s data with
  | Except.ok resp => some resp
  | Except.error (some req, msg) =>
      some { ok := false, unified_msg_origin := req.unified_msg_origin,
             data := none, error_message := msg }
  | Except.error (none, _) => none

/-- taskWrites gives the response frames written by the task spawned for
one request frame (lines 72 and 120-126): when \x5fhandle_request raises,
the task dies without writing; otherwise exactly one response frame
carrying the echoed request id is written under the write lock. -/
def taskWrites (s : RPCServer) (frame : Nat × List (String × Obj)) :
    List (Nat × CallResponse) :=
  match handleRequest s frame.2 with
  | none => []
  | some resp => [(frame.1, resp)]

/-- handleClient embeds the read loop of RPCServer.\x5fhandle_client (lines
58-78) on the sequence of frames a connection delivers: every frame is read
and spawns its own task (asyncio.create_task); the loop never awaits a task
and never observes a task failure, so it keeps reading regardless of how
any individual task ends. -/
def handleClient (s : RPCServer) (frames : List (Nat × List (String × Obj))) :
    List (List (Nat × CallResponse)) :=
  frames.map (taskWrites s)

/-- test_function embeds the handler of the same name from
src/modules/test1/\x5f\x5finit\x5f\x5f.py (lines 51-61): it evaluates
params.value * 2 and wraps it in TestResponse(result=...).  Attribute
access is the first operation, so a raw dict argument raises
AttributeError there.  A non-integer value attribute would make either the
multiplication or the TestResponse field validation raise; no claim
reaches that branch and it is modelled as a single exception. -/
def test_function (params : Obj) : Except String Obj :=
  match getattr params "value" with
  | Except.error e => Except.error e
  | Except.ok (Obj.pyInt n) =>
      Except.ok (Obj.pyModel "TestResponse" [("result", Obj.pyInt (n * 2))])
  | Except.ok _ => Except.error "validation error for TestResponse"

/-- test_function2 embeds the handler of the same name (lines 64-67): it
unconditionally raises ValueError with this message. -/
def test_function2 (_params : Obj) : Except String Obj :=
  Except.error "This is a test error."

/-- test_function_meta is the ApiMeta built by the decorator application
m.api(method_name="test_function") on the async handler test_function:
param type hint TestParameters, return type hint TestResponse, coroutine
function, explicit method name. -/
def test_function_meta : ApiMeta :=
  { func := test_function, param_model := "TestParameters",
    resp_model := "TestResponse", is_async := true,
    method_name := "test_function" }

/-- test_function2_meta is the ApiMeta built by the decorator application
m.api(method_name="test_function2") on the async handler test_function2. -/
def test_function2_meta : ApiMeta :=
  { func := test_function2, param_model := "TestParameters",
    resp_model := "TestResponse", is_async := true,
    method_name := "test_function2" }

/-- initResourcesHook is the start hook init_resources of the test module;
its body only logs, so it does not raise. -/
def initResourcesHook : Hook := { name := "init_resources", raises := false }

/-- cleanupHook is the shutdown hook cleanup of the test module; its body
only logs, so it does not raise. -/
def cleanupHook : Hook := { name := "cleanup", raises := false }

/-- testModule is the module built by executing
src/modules/test1/\x5f\x5finit\x5f\x5f.py top to bottom: the Module
constructor call, then the on_start, on_shutdown and two api decorator
applications in source order. -/
def testModule : Module :=
  ((({ id := "test_module", name := "TestModule",
       description := "A test module for demonstrating RPC functionality.",
       apis := [], start_hooks := [], shutdown_hooks := [] : Module
     }.on_start initResourcesHook).on_shutdown cleanupHook
    ).registerApi test_function_meta).registerApi test_function2_meta

/-- testServer is the server state after the decorator side effect
server.\x5fregister_module(\x5ftest_module) has run: the singleton server
from RPCServer.\x5f\x5finit\x5f\x5f with its one write lock and the fully
decorated test module under its id.  (Python registers a reference at the
first api decoration and mutates the module afterwards; the final state is
the one modelled here.) -/
def testServer : RPCServer :=
  RPCServer.registerModule
    { socket_path := "/run/logic/logic.sock", modules := [], write_lock := 0 }
    testModule

/-- Event records one observable action of the server lifecycle: running
or logging-and-skipping a hook, removing the socket file, binding the
listener, logging a crash, the backoff sleep, and the restart log line. -/
inductive Event where
  | hookRun (name : String)
  | hookError (name : String)
  | unlink
  | bind
  | crashLog (msg : String)
  | sleep (seconds : Nat)
  | restartLog
deriving DecidableEq

/-- hookEvent gives the event produced for one hook by
RPCServer.\x5fexecute_hooks (lines 44-56): a raising hook is caught,
logged and skipped; any other hook runs. -/
def hookEvent (h : Hook) : Event :=
  if h.raises then Event.hookError h.name else Event.hookRun h.name

/-- execHooksEvents is the event trace of RPCServer.\x5fexecute_hooks on a
hook list: every hook is attempted in order, failures never stop the
iteration. -/
def execHooksEvents (hooks : List Hook) : List Event :=
  hooks.map hookEvent

/-- eventsOfModules concatenates, in module registration order, the hook
traces selected by f from each registered module (the for module in
self.modules.values() loops in start and shutdown). -/
def eventsOfModules (f : Module → List Hook) : List (String × Module) → List Event
  | [] => []
  | kv :: rest => execHooksEvents (f kv.2) ++ eventsOfModules f rest

/-- IterScript describes how one iteration of the while loop in
RPCServer.start (lines 170-192) ends: the bind raises an ordinary
exception, or the bind succeeds and serve_forever later raises an ordinary
exception, or the bind succeeds and the iteration is ended by
asyncio.CancelledError. -/
inductive IterScript where
  | bindFail (msg : String)
  | serveCrash (msg : String)
  | serveCancel
deriving DecidableEq

/-- iterEvents is the event trace of one iteration of the serve loop: the
try block first unlinks the socket path (line 173, missing_ok=True), then
binds (line 175); an ordinary exception lands in the except branch (lines
189-192) which logs the crash, sleeps the fixed 5 second backoff and logs
the restart; a cancellation breaks out of the loop with no further
events. -/
def iterEvents : IterScript → List Event
  | IterScript.bindFail msg =>
      [Event.unlink, Event.crashLog msg, Event.sleep 5, Event.restartLog]
  | IterScript.serveCrash msg =>
      [Event.unlink, Event.bind, Event.crashLog msg, Event.sleep 5, Event.restartLog]
  | IterScript.serveCancel => [Event.unlink, Event.bind]

/-- serveLoop is the event trace of the while self.\x5fis_running loop of
RPCServer.start on a finite script of iteration outcomes: a cancellation
breaks out of the loop (line 187), every other outcome falls through to
the next iteration; an empty script means the observation stops while the
loop is still serving. -/
def serveLoop : List IterScript → List Event
  | [] => []
  | it :: rest =>
    match it with
    | IterScript.serveCancel => iterEvents IterScript.serveCancel
    | other => iterEvents other ++ serveLoop rest

/-- startEvents is the event trace of RPCServer.start (lines 159-194): it
first executes every registered module's start hooks in registration
order, then enters the serve loop.  No shutdown hook appears anywhere in
this function; the cancellation path simply breaks. -/
def startEvents (mods : List (String × Module)) (script : List IterScript) : List Event :=
  eventsOfModules Module.start_hooks mods ++ serveLoop script

/-- shutdownEvents is the event trace of the separate coroutine
RPCServer.shutdown (lines 196-201): it executes every registered module's
shutdown hooks in registration order.  Nothing in RPCServer.start calls
it. -/
def shutdownEvents (mods : List (String × Module)) : List Event :=
  eventsOfModules Module.shutdown_hooks mods

/-- dupMeta is a second ApiMeta carrying the method name test_function that
is already registered on the test module; its is_async flag differs from
the registered entry so that the two entries are distinguishable. -/
def dupMeta : ApiMeta :=
  { func := test_function, param_model := "TestParameters",
    resp_model := "TestResponse", is_async := false,
    method_name := "test_function" }

/-- otherModuleSameId is a module distinct in content from testModule but
carrying the same id, used to exercise re-registration. -/
def otherModuleSameId : Module :=
  { id := "test_module", name := "OtherModule", description := "Different content.",
    apis := [], start_hooks := [], shutdown_hooks := [] }

/-- invalidEnvelopeData is a decoded payload map that fails CallParameters
validation: the required module_id field is missing. -/
def invalidEnvelopeData : List (String × Obj) :=
  [("unified_msg_origin", Obj.pyStr "u5"), ("method", Obj.pyStr "test_function"),
   ("params", Obj.pyDict [])]

/-! Helper lemmas shared by the claim theorems. -/

/-- Looking up the key just written by dictSet yields the new value. -/
theorem dictLookup_dictSet_self {α : Type} (d : List (String × α)) (k : String) (v : α) :
    dictLookup (dictSet d k v) k = some v := by
  induction d with
  | nil => simp [dictSet, dictLookup]
  | cons kv rest ih =>
    obtain ⟨k2, w⟩ := kv
    by_cases h : k2 = k
    · simp [dictSet, dictLookup, h]
    · simp [dictSet, dictLookup, h, ih]

/-- Looking up any other key after dictSet is unchanged. -/
theorem dictLookup_dictSet_ne {α : Type} (d : List (String × α)) (k key : String) (v : α)
    (h : key ≠ k) :
    dictLookup (dictSet d k v) key = dictLookup d key := by
  induction d with
  | nil => simp [dictSet, dictLookup, Ne.symm h]
  | cons kv rest ih =>
    obtain ⟨k2, w⟩ := kv
    by_cases h2 : k2 = k
    · subst h2
      simp [dictSet, dictLookup, Ne.symm h]
    · by_cases h3 : k2 = key
      · simp [dictSet, dictLookup, h2, h3, h]
      · simp [dictSet, dictLookup, h2, h3, ih]

/-- A hook of a registered module contributes its event to the
concatenated per-module hook trace. -/
theorem hookEvent_mem_eventsOfModules (f : Module → List Hook)
    (mods : List (String × Module)) (kv : String × Module) (h : Hook)
    (hkv : kv ∈ mods) (hh : h ∈ f kv.2) :
    hookEvent h ∈ eventsOfModules f mods := by
  induction mods with
  | nil => cases hkv
  | cons head tail ih =>
    cases hkv with
    | head => exact List.mem_append_left _ (List.mem_map_of_mem hookEvent hh)
    | tail _ hkv2 => exact List.mem_append_right _ (ih hkv2)

/-- The serve loop processes any number of consecutive crash iterations,
emitting the five-event crash trace each time: the retry policy never
terminates the loop. -/
theorem serveLoop_replicate_crash (msg : String) (n : Nat) :
    (serveLoop (List.replicate n (IterScript.serveCrash msg))).length = 5 * n := by
  induction n with
  | zero => rfl
  | succ k ih =>
    simp only [List.replicate_succ, serveLoop, iterEvents, List.length_append,
      List.length_cons, List.length_nil, ih]
    omega

/-! Claim theorems. -/

/-- C1: the spec scenario request (module_id test_module, method
test_function, unified_msg_origin u1, params value 5) does not produce the
claimed success response on the code as written: RPCServer dispatch passes
the raw params dict to the handler without decoding it into the declared
TestParameters model, the handler's attribute access params.value raises
AttributeError, and the response is a failure echoing that exception text
instead of ok true with result 10. -/
theorem c1_scenario_fails_on_code :
    handleRequest testServer
      [("module_id", Obj.pyStr "test_module"), ("method", Obj.pyStr "test_function"),
       ("unified_msg_origin", Obj.pyStr "u1"), ("params", Obj.pyDict [("value", Obj.pyInt 5)])]
    = some { ok := false, unified_msg_origin := "u1", data := none,
             error_message := "\x27dict\x27 object has no attribute \x27value\x27" } := rfl

/-- C2: the dispatcher never decodes the raw params map into the declared
param_type.  At a params map whose shape does not match TestParameters the
handler is still invoked (on the raw dict) and the failure response carries
the handler's AttributeError text, not a validation-error message; the
AttributeError about the dict type shows the raw dict reached the handler
body. -/
theorem c2_no_param_decode_on_code :
    handleRequest testServer
      [("module_id", Obj.pyStr "test_module"), ("method", Obj.pyStr "test_function"),
       ("unified_msg_origin", Obj.pyStr "u0"), ("params", Obj.pyDict [("wrong", Obj.pyInt 1)])]
    = some { ok := false, unified_msg_origin := "u0", data := none,
             error_message := "\x27dict\x27 object has no attribute \x27value\x27" } := rfl

/-- C3: for every request whose envelope decodes into a valid CallRequest
but whose module_id is absent from the registry, or whose module exists
but lacks the method, dispatch returns a response (it never raises past
this boundary) with ok false and an error message naming the unknown
module or unknown method respectively. -/
theorem c3_unknown_module_or_method (s : RPCServer) (data : List (String × Obj))
    (req : CallParameters)
    (hdec : decodeCallParameters data = Except.ok req)
    (hmiss : ∀ m, dictLookup s.modules req.module_id = some m →
       dictLookup m.apis req.method = none) :
    handleRequest s data =
      some { ok := false, unified_msg_origin := req.unified_msg_origin, data := none,
             error_message :=
               match dictLookup s.modules req.module_id with
               | none => "Unknown module: " ++ req.module_id
               | some _ => "Unknown method: " ++ req.method } := by
  simp only [handleRequest, tryBody, hdec]
  cases hm : dictLookup s.modules req.module_id with
  | none => simp
  | some m => simp [hmiss m hm]

/-- C3 witness: a concrete request for the unregistered module nope gets
the unknown-module failure response. -/
theorem c3_witness :
    handleRequest testServer
      [("module_id", Obj.pyStr "nope"), ("method", Obj.pyStr "test_function"),
       ("unified_msg_origin", Obj.pyStr "u3"), ("params", Obj.pyDict [])]
    = some { ok := false, unified_msg_origin := "u3", data := none,
             error_message := "Unknown module: nope" } :=
  c3_unknown_module_or_method testServer
    [("module_id", Obj.pyStr "nope"), ("method", Obj.pyStr "test_function"),
     ("unified_msg_origin", Obj.pyStr "u3"), ("params", Obj.pyDict [])]
    { module_id := "nope", unified_msg_origin := "u3", method := "test_function",
      params := [] }
    rfl (fun m hm => by exact Option.noConfusion hm)

/-- C4: whenever the resolved handler raises during invocation, dispatch
catches the exception and returns ok false, data absent, the exception's
message text as error_message, and the request's unified_msg_origin echoed
back. -/
theorem c4_handler_exception_caught (s : RPCServer) (data : List (String × Obj))
    (req : CallParameters) (module : Module) (meta : ApiMeta) (msg : String)
    (hdec : decodeCallParameters data = Except.ok req)
    (hmod : dictLookup s.modules req.module_id = some module)
    (hmeta : dictLookup module.apis req.method = some meta)
    (herr : meta.func (Obj.pyDict req.params) = Except.error msg) :
    handleRequest s data =
      some { ok := false, unified_msg_origin := req.unified_msg_origin, data := none,
             error_message := msg } := by
  simp only [handleRequest, tryBody, hdec, hmod, hmeta, ite_self, herr]

/-- C4 witness: the always-raising handler test_function2 yields the
failure response carrying its exception text. -/
theorem c4_witness :
    handleRequest testServer
      [("module_id", Obj.pyStr "test_module"), ("method", Obj.pyStr "test_function2"),
       ("unified_msg_origin", Obj.pyStr "u2"), ("params", Obj.pyDict [("value", Obj.pyInt 5)])]
    = some { ok := false, unified_msg_origin := "u2", data := none,
             error_message := "This is a test error." } :=
  c4_handler_exception_caught testServer
    [("module_id", Obj.pyStr "test_module"), ("method", Obj.pyStr "test_function2"),
     ("unified_msg_origin", Obj.pyStr "u2"), ("params", Obj.pyDict [("value", Obj.pyInt 5)])]
    { module_id := "test_module", unified_msg_origin := "u2", method := "test_function2",
      params := [("value", Obj.pyInt 5)] }
    testModule test_function2_meta "This is a test error." rfl rfl rfl rfl

/-- C5 counterexample: registering an ApiMeta under the already-present
method name test_function does not fail (there is no DuplicateMethodError
anywhere in the code) and does not leave the existing entry unchanged: the
call returns ok and the stored entry becomes the new meta, whose is_async
flag differs from the one registered before. -/
theorem c5_counterexample :
    testModule.api true true dupMeta = Except.ok (testModule.registerApi dupMeta) ∧
    dictLookup (testModule.registerApi dupMeta).apis "test_function" = some dupMeta ∧
    dupMeta.is_async = false ∧
    (dictLookup testModule.apis "test_function").map ApiMeta.is_async = some true :=
  ⟨rfl, rfl, rfl, rfl⟩

/-- C5 amended: registering an API whose method_name is already present in
the module's apis dict succeeds and silently replaces the existing entry
with the new meta, leaving every other method's entry unchanged. -/
theorem c5_amended_silent_overwrite (m : Module) (meta : ApiMeta) (k : String)
    (_hdup : (dictLookup m.apis meta.method_name).isSome = true)
    (hk : k ≠ meta.method_name) :
    m.api true true meta = Except.ok (m.registerApi meta) ∧
    dictLookup (m.registerApi meta).apis meta.method_name = some meta ∧
    dictLookup (m.registerApi meta).apis k = dictLookup m.apis k := by
  refine ⟨rfl, ?_, ?_⟩
  · exact dictLookup_dictSet_self m.apis meta.method_name meta
  · exact dictLookup_dictSet_ne m.apis meta.method_name k meta hk

/-- C5 witness: re-registering test_function on the test module succeeds,
stores the new meta, and leaves test_function2 untouched. -/
theorem c5_amended_witness :
    testModule.api true true dupMeta = Except.ok (testModule.registerApi dupMeta) ∧
    dictLookup (testModule.registerApi dupMeta).apis "test_function" = some dupMeta ∧
    dictLookup (testModule.registerApi dupMeta).apis "test_function2"
      = dictLookup testModule.apis "test_function2" :=
  c5_amended_silent_overwrite testModule dupMeta "test_function2" rfl (by decide)

/-- C6 counterexample: the lock serializing response writes is not scoped
to the individual connection: writes on two different connections of the
test server acquire the very same lock, so they do contend on a shared
lock, contrary to the claim. -/
theorem c6_counterexample :
    writeLockFor testServer 0 = writeLockFor testServer 1 := rfl

/-- C6 amended: response writes are serialized by a single mutual-exclusion
lock created once in RPCServer init and scoped to the server instance:
every write, on every connection, acquires that one lock, so writers on the
same connection exclude each other and writers on different connections
contend on the same shared lock. -/
theorem c6_amended_server_global_lock (s : RPCServer) (c1 c2 : Nat) :
    writeLockFor s c1 = s.write_lock ∧ writeLockFor s c1 = writeLockFor s c2 :=
  ⟨rfl, rfl⟩

/-- C7 counterexample: on the explicit cancellation signal the serve loop
of RPCServer.start terminates without executing the registered shutdown
hook cleanup: the whole start trace for the test server ends at the break
with no shutdown-hook event, although the test module has cleanup
registered as a shutdown hook. -/
theorem c7_counterexample :
    startEvents testServer.modules [IterScript.serveCancel]
      = [Event.hookRun "init_resources", Event.unlink, Event.bind] ∧
    ¬ (Event.hookRun "cleanup" ∈ startEvents testServer.modules [IterScript.serveCancel]) ∧
    cleanupHook ∈ testModule.shutdown_hooks ∧
    ("test_module", testModule) ∈ testServer.modules :=
  ⟨rfl, by decide, List.Mem.head _, List.Mem.head _⟩

/-- C7 amended: when the serve loop receives the explicit cancellation
signal while serving it breaks out and terminates, and this path does not
restart the listener; it does not execute shutdown hooks.  Shutdown hooks
of every registered module run only in the separate shutdown() coroutine,
which the serve loop never invokes. -/
theorem c7_amended_cancel_breaks_without_hooks (script : List IterScript)
    (mods : List (String × Module)) (kv : String × Module) (h : Hook)
    (hkv : kv ∈ mods) (hh : h ∈ kv.2.shutdown_hooks) :
    serveLoop (IterScript.serveCancel :: script) = [Event.unlink, Event.bind] ∧
    hookEvent h ∈ shutdownEvents mods :=
  ⟨rfl, hookEvent_mem_eventsOfModules Module.shutdown_hooks mods kv h hkv hh⟩

/-- C7 witness: for the test server, cancellation ends the loop at once
regardless of the rest of the script, and the cleanup hook event belongs
to the shutdown() trace. -/
theorem c7_amended_witness :
    serveLoop (IterScript.serveCancel :: [IterScript.serveCrash "x"])
      = [Event.unlink, Event.bind] ∧
    hookEvent cleanupHook ∈ shutdownEvents testServer.modules :=
  c7_amended_cancel_breaks_without_hooks [IterScript.serveCrash "x"] testServer.modules
    ("test_module", testModule) cleanupHook (List.Mem.head _) (List.Mem.head _)

/-- C8: an iteration of the serve loop that ends in an unexpected exception
(a bind failure or a crash of the listener) logs the crash, sleeps the
fixed 5 second backoff, logs the restart, and falls through to the next
iteration of the bind-and-serve loop, whatever remains in the script
(unbounded retry); every iteration, and hence every bind attempt, begins
by removing any pre-existing file at the socket path; and a script of n
consecutive crashes is retried n times without the loop terminating. -/
theorem c8_crash_backoff_retry (msg : String) (it it2 : IterScript)
    (rest : List IterScript) (n : Nat)
    (h : it = IterScript.bindFail msg ∨ it = IterScript.serveCrash msg) :
    serveLoop (it :: rest) = iterEvents it ++ serveLoop rest ∧
    (iterEvents it
        = [Event.unlink, Event.crashLog msg, Event.sleep 5, Event.restartLog] ∨
     iterEvents it
        = [Event.unlink, Event.bind, Event.crashLog msg, Event.sleep 5, Event.restartLog]) ∧
    (iterEvents it2).head? = some Event.unlink ∧
    (serveLoop (List.replicate n (IterScript.serveCrash msg))).length = 5 * n := by
  refine ⟨?_, ?_, ?_, serveLoop_replicate_crash msg n⟩
  · cases h with
    | inl hb => subst hb; rfl
    | inr hs => subst hs; rfl
  · cases h with
    | inl hb => subst hb; exact Or.inl rfl
    | inr hs => subst hs; exact Or.inr rfl
  · cases it2 <;> rfl

/-- C8 witness: a concrete crash iteration followed by more script is
logged, backed off for 5 seconds, and retried; a bind-failure iteration
also starts with the unlink; three consecutive crashes yield three full
retry traces. -/
theorem c8_witness :
    serveLoop (IterScript.serveCrash "boom" :: [IterScript.serveCancel])
      = iterEvents (IterScript.serveCrash "boom") ++ serveLoop [IterScript.serveCancel] ∧
    (iterEvents (IterScript.serveCrash "boom")
        = [Event.unlink, Event.crashLog "boom", Event.sleep 5, Event.restartLog] ∨
     iterEvents (IterScript.serveCrash "boom")
        = [Event.unlink, Event.bind, Event.crashLog "boom", Event.sleep 5, Event.restartLog]) ∧
    (iterEvents (IterScript.bindFail "denied")).head? = some Event.unlink ∧
    (serveLoop (List.replicate 3 (IterScript.serveCrash "boom"))).length = 5 * 3 :=
  c8_crash_backoff_retry "boom" (IterScript.serveCrash "boom")
    (IterScript.bindFail "denied") [IterScript.serveCancel] 3 (Or.inr rfl)

/-- C9: registering a module whose id is already a key of the registry is
a no-op with no failure mode: the server state, hence its module set and
every module's method set, is left entirely unchanged, whatever the second
module's content. -/
theorem c9_reregister_noop (s : RPCServer) (mOld m2 : Module)
    (hold : dictLookup s.modules m2.id = some mOld) :
    s.registerModule m2 = s := by
  simp [RPCServer.registerModule, hold]

/-- C9 witness: re-registering a different module under the id
test_module leaves the test server unchanged. -/
theorem c9_witness : testServer.registerModule otherModuleSameId = testServer :=
  c9_reregister_noop testServer testModule otherModuleSameId rfl

/-- C10: for a payload map that fails CallRequest envelope validation, the
request handler raises out of its own exception handler (the failure
branch reads the unbound request variable), so it produces no response
value and the task spawned for that request writes no response frame,
while the connection read loop goes on spawning and serving the remaining
frames exactly as before. -/
theorem c10_invalid_envelope_raises (s : RPCServer) (data : List (String × Obj))
    (e : String) (reqId : Nat) (rest : List (Nat × List (String × Obj)))
    (hdec : decodeCallParameters data = Except.error e) :
    handleRequest s data = none ∧
    taskWrites s (reqId, data) = [] ∧
    handleClient s ((reqId, data) :: rest) = [] :: handleClient s rest := by
  have h1 : handleRequest s data = none := by
    simp only [handleRequest, tryBody, hdec]
  refine ⟨h1, ?_, ?_⟩
  · simp only [taskWrites, h1]
  · simp only [handleClient, List.map, taskWrites, h1]

/-- C10 witness: a frame whose payload lacks module_id produces no
response write and the read loop carries on with an empty remainder. -/
theorem c10_witness :
    handleRequest testServer invalidEnvelopeData = none ∧
    taskWrites testServer (7, invalidEnvelopeData) = [] ∧
    handleClient testServer ((7, invalidEnvelopeData) :: [])
      = [] :: handleClient testServer [] :=
  c10_invalid_envelope_raises testServer invalidEnvelopeData
    "validation error for CallParameters" 7 [] rfl

end LogicServer
